import Mathlib

/-!
A shallow embedding of the `ignite` Solana program
(`src/program/programs/ignite/src/lib.rs`) and proofs about its
state-machine behaviour.

Modelling conventions:
* `Pubkey` values are opaque and modelled as `Nat`.
* `u8` / `u64` fields are modelled as `Nat`; where the Rust code performs
  checked arithmetic (`checked_add`) the corresponding modulus (`2^8`,
  `2^64`) is made explicit.  Inputs that are `u8` in Rust are restricted
  to `< 256` in quantified statements where it matters.
* Each instruction handler becomes a pure function
  `GameState → ... → Except TxFailure ...`.  On Solana any failure
  (a failed `require!`, an Anchor account-constraint violation, or a
  panic from `unwrap()` / out-of-bounds indexing) aborts the whole
  transaction, so an `Except.error` result means the stored record is
  left unchanged; `applyCmd` below realises exactly that semantics.
* The token-transfer CPIs (buy-in collection, prize payout) are external
  collaborators; they are modelled as always succeeding.  The payout of
  `declare_winner` is returned as the second component of its result so
  that statements about "the amount paid" can be made.
-/

/-- Error codes of the program (`enum IgniteError` in the source). -/
inductive IgniteError where
  | InvalidGridSize
  | GameNotJoinable
  | GameFull
  | GameNotActive
  | OutOfBounds
  | TileIsLava
  | TileOccupied
  | PlayerNotInGame
  | PlayerEliminated
  | InvalidMove
  | GameNotResolved
deriving Repr, DecidableEq

/-- How a transaction can fail: with a program error (`require!`),
with an Anchor account-constraint violation (`has_one = authority`),
or with a Rust panic (`unwrap()` on `None`, out-of-bounds indexing). -/
inductive TxFailure where
  | err : IgniteError → TxFailure
  | constraint : TxFailure
  | panic : TxFailure
deriving Repr, DecidableEq

/-- The `struct PlayerState` of the source. -/
structure PlayerState where
  pubkey : Nat
  x : Nat
  y : Nat
  alive : Bool
deriving Repr, DecidableEq

/-- The `struct GameState` of the source.  `status`: 0 = waiting,
1 = active, 2 = resolved.  `grid` entries: 0 = safe, 1 = lava. -/
structure GameState where
  game_id : Nat
  authority : Nat
  status : Nat
  grid_size : Nat
  grid : List Nat
  players : List PlayerState
  buy_in : Nat
  prize_pool : Nat
  winner : Option Nat
  created_at : Int
  collapse_round : Nat
deriving Repr, DecidableEq

/-- Rust `u64::checked_add`: `some` of the sum when it fits in 64 bits. -/
def checkedAdd64 (a b : Nat) : Option Nat :=
  if a + b < 2 ^ 64 then some (a + b) else none

/-- Rust `u8::checked_add`: `some` of the sum when it fits in 8 bits. -/
def checkedAdd8 (a b : Nat) : Option Nat :=
  if a + b < 2 ^ 8 then some (a + b) else none

/-- Rust slice indexing `l[i]`: the element when `i` is in range,
a panic (aborting the transaction) otherwise. -/
def rustIndex (l : List Nat) (i : Nat) : Except TxFailure Nat :=
  match l.get? i with
  | some v => .ok v
  | none => .error .panic

/-- The `initialize_game` handler of the source: the only configuration check is
`require!(grid_size <= 10, InvalidGridSize)`; the fresh record has an
all-safe `grid_size * grid_size` grid, empty roster, zero pool. -/
def initialize_game (game_id authority buy_in grid_size : Nat)
    (created_at : Int) : Except TxFailure GameState :=
  if grid_size ≤ 10 then
    .ok { game_id := game_id
          authority := authority
          status := 0
          grid_size := grid_size
          grid := List.replicate (grid_size * grid_size) 0
          players := []
          buy_in := buy_in
          prize_pool := 0
          winner := none
          created_at := created_at
          collapse_round := 0 }
  else .error (.err .InvalidGridSize)

/-- The `join_game` handler of the source: requires waiting status, roster below
`MAX_PLAYERS = 10`, flattened tile index in range, a safe tile, and no
existing player (alive or not) on the tile; then collects the buy-in
(`prize_pool.checked_add(buy_in).unwrap()` — a panic on overflow),
appends the player and auto-activates once the roster has ≥ 2 players. -/
def join_game (g : GameState) (player_pubkey start_x start_y : Nat) :
    Except TxFailure GameState :=
  if g.status = 0 then
    if g.players.length < 10 then
      let tile_idx := start_y * g.grid_size + start_x
      if tile_idx < g.grid.length then
        if g.grid.getD tile_idx 0 = 0 then
          if g.players.any (fun p => p.x == start_x && p.y == start_y) then
            .error (.err .TileOccupied)
          else
            match checkedAdd64 g.prize_pool g.buy_in with
            | none => .error .panic
            | some pool =>
              let players := g.players ++
                [{ pubkey := player_pubkey, x := start_x, y := start_y,
                   alive := true }]
              .ok { g with
                players := players
                prize_pool := pool
                status := if 2 ≤ players.length then 1 else g.status }
        else .error (.err .TileIsLava)
      else .error (.err .OutOfBounds)
    else .error (.err .GameFull)
  else .error (.err .GameNotJoinable)

/-- The `submit_move` handler of the source: requires active status, the signer in
the roster, that player alive, Manhattan distance exactly 1 (computed in
`i16`, exact for `u8` inputs), flattened destination index in range and
a safe destination tile; then updates only that player's position. -/
def submit_move (g : GameState) (player_key new_x new_y : Nat) :
    Except TxFailure GameState :=
  if g.status = 1 then
    match g.players.findIdx? (fun p => p.pubkey == player_key) with
    | none => .error (.err .PlayerNotInGame)
    | some i =>
      match g.players.get? i with
      | none => .error .panic
      | some p =>
        if p.alive then
          let dx := ((new_x : Int) - (p.x : Int)).natAbs
          let dy := ((new_y : Int) - (p.y : Int)).natAbs
          if dx + dy = 1 then
            let tile_idx := new_y * g.grid_size + new_x
            if tile_idx < g.grid.length then
              if g.grid.getD tile_idx 0 = 0 then
                .ok { g with
                  players := g.players.set i { p with x := new_x, y := new_y } }
              else .error (.err .TileIsLava)
            else .error (.err .OutOfBounds)
          else .error (.err .InvalidMove)
        else .error (.err .PlayerEliminated)
  else .error (.err .GameNotActive)

/-- The tile-flipping loop of `trigger_collapse`: for each `(tx, ty)`,
set `grid[ty * grid_size + tx] = 1` when that flattened index is in
range, silently skipping it otherwise. -/
def setHazards (grid : List Nat) (grid_size : Nat)
    (tiles : List (Nat × Nat)) : List Nat :=
  tiles.foldl
    (fun gr t =>
      let idx := t.2 * grid_size + t.1
      if idx < gr.length then gr.set idx 1 else gr)
    grid

/-- The elimination loop of `trigger_collapse`: every alive player whose
cell `grid[p.y * grid_size + p.x]` is lava has `alive` set to `false`;
the indexing panics when the player's flattened index is out of range
(Rust `game.grid[idx]` with no bound check). -/
def eliminateOnLava (grid : List Nat) (grid_size : Nat) :
    List PlayerState → Except TxFailure (List PlayerState)
  | [] => .ok []
  | p :: ps =>
    if p.alive then
      match rustIndex grid (p.y * grid_size + p.x) with
      | .error e => .error e
      | .ok v =>
        let p' := if v = 1 then { p with alive := false } else p
        (eliminateOnLava grid grid_size ps).map (fun l => p' :: l)
    else
      (eliminateOnLava grid grid_size ps).map (fun l => p :: l)

/-- The `trigger_collapse` handler of the source: Anchor's `has_one = authority`
constraint requires the caller to be the stored authority; then requires
active status, flips the listed tiles to lava, eliminates alive players
standing on lava, and increments `collapse_round` with
`checked_add(1).unwrap()` (a panic on overflow). -/
def trigger_collapse (g : GameState) (caller : Nat)
    (tiles : List (Nat × Nat)) : Except TxFailure GameState :=
  if caller = g.authority then
    if g.status = 1 then
      let grid := setHazards g.grid g.grid_size tiles
      match eliminateOnLava grid g.grid_size g.players with
      | .error e => .error e
      | .ok players =>
        match checkedAdd8 g.collapse_round 1 with
        | none => .error .panic
        | some r =>
          .ok { g with grid := grid, players := players, collapse_round := r }
    else .error (.err .GameNotActive)
  else .error .constraint

/-- The `declare_winner` handler of the source: Anchor's `has_one = authority`
constraint, then requires active status and exactly one alive player;
sets `winner` to that survivor, `status = 2`, transfers the whole
`prize_pool` (returned as the second component) and zeroes the pool. -/
def declare_winner (g : GameState) (caller : Nat) :
    Except TxFailure (GameState × Nat) :=
  if caller = g.authority then
    if g.status = 1 then
      let alive := g.players.filter (fun p => p.alive)
      if alive.length = 1 then
        match alive.head? with
        | some w =>
          .ok ({ g with winner := some w.pubkey, status := 2, prize_pool := 0 },
               g.prize_pool)
        | none => .error .panic
      else .error (.err .GameNotResolved)
    else .error (.err .GameNotActive)
  else .error .constraint

/-- A command against an existing game record (everything but create). -/
inductive Cmd where
  | join (player_pubkey start_x start_y : Nat)
  | move (player_key new_x new_y : Nat)
  | collapse (caller : Nat) (tiles : List (Nat × Nat))
  | settle (caller : Nat)
deriving Repr, DecidableEq

/-- Transaction semantics of one command: a failed transaction leaves the
stored record unchanged. -/
def applyCmd (g : GameState) : Cmd → GameState
  | .join pk x y =>
    match join_game g pk x y with
    | .ok g' => g'
    | .error _ => g
  | .move pk x y =>
    match submit_move g pk x y with
    | .ok g' => g'
    | .error _ => g
  | .collapse c tiles =>
    match trigger_collapse g c tiles with
    | .ok g' => g'
    | .error _ => g
  | .settle c =>
    match declare_winner g c with
    | .ok gp => gp.1
    | .error _ => g

/-- Run a sequence of commands against a record. -/
def run (g : GameState) (cmds : List Cmd) : GameState :=
  cmds.foldl applyCmd g

/-- The prize-pool accounting invariant: the pool is `buy_in` times the
roster size until resolution, and zero once resolved. -/
def prizeInv (g : GameState) : Prop :=
  (g.status ≠ 2 → g.prize_pool = g.buy_in * g.players.length) ∧
  (g.status = 2 → g.prize_pool = 0)

/-- The pubkeys carried by the join commands of a sequence, in order. -/
def joinKeys : List Cmd → List Nat
  | [] => []
  | .join pk _ _ :: cs => pk :: joinKeys cs
  | .move _ _ _ :: cs => joinKeys cs
  | .collapse _ _ :: cs => joinKeys cs
  | .settle _ :: cs => joinKeys cs



/-- A freshly created 2×2 game: the result of
`initialize_game 1 9 100 2 0` (authority 9, buy-in 100). -/
def sampleGame : GameState :=
  { game_id := 1, authority := 9, status := 0, grid_size := 2,
    grid := [0, 0, 0, 0], players := [], buy_in := 100, prize_pool := 0,
    winner := none, created_at := 0, collapse_round := 0 }

/-- The game `sampleGame` with a single eliminated player sitting on tile (1,1). -/
def sampleDeadOccupant : GameState :=
  { sampleGame with
    players := [{ pubkey := 5, x := 1, y := 1, alive := false }] }

/-- The game `sampleGame` with a single alive player sitting on tile (1,1). -/
def sampleAliveOccupant : GameState :=
  { sampleGame with
    players := [{ pubkey := 5, x := 1, y := 1, alive := true }] }

/-- An active 2×2 game with no players (status forced to active). -/
def sampleActiveEmpty : GameState := { sampleGame with status := 1 }

/-- An active 2×2 game with two alive players. -/
def sampleActive : GameState :=
  { sampleGame with
    status := 1
    players := [{ pubkey := 5, x := 1, y := 0, alive := true },
                { pubkey := 6, x := 0, y := 1, alive := true }] }

/-- An active 2×2 game with one survivor and one eliminated player. -/
def sampleSettle : GameState :=
  { sampleGame with
    status := 1
    players := [{ pubkey := 5, x := 0, y := 0, alive := true },
                { pubkey := 6, x := 1, y := 1, alive := false }]
    prize_pool := 200 }

/-- An active 2×2 game with two alive players, one of them at (0,0). -/
def sampleMove : GameState :=
  { sampleGame with
    status := 1
    players := [{ pubkey := 5, x := 0, y := 0, alive := true },
                { pubkey := 6, x := 1, y := 0, alive := true }] }

/-- An active 2×2 game with one alive player at (1,1). -/
def sampleEdge : GameState :=
  { sampleGame with
    status := 1
    players := [{ pubkey := 5, x := 1, y := 1, alive := true }] }

/-- A waiting game whose pool is one buy-in below the `u64` limit. -/
def sampleOverflowPool : GameState :=
  { sampleGame with prize_pool := 2 ^ 64 - 1 }

/-- An active game whose collapse counter sits at the `u8` maximum. -/
def sampleMaxRound : GameState :=
  { sampleGame with status := 1, collapse_round := 255 }

/-- The record produced by `join_game sampleGame 5 0 0`. -/
def gJoined : GameState :=
  { sampleGame with
    players := [{ pubkey := 5, x := 0, y := 0, alive := true }]
    prize_pool := 100 }

/-- Characterization of a successful `join_game`. -/
theorem join_game_ok {g g' : GameState} {pk x y : Nat}
    (h : join_game g pk x y = .ok g') :
    g.status = 0 ∧
    g'.players = g.players ++ [{ pubkey := pk, x := x, y := y, alive := true }] ∧
    g'.prize_pool = g.prize_pool + g.buy_in ∧
    g'.status = (if 2 ≤ g.players.length + 1 then 1 else 0) ∧
    g'.grid = g.grid ∧ g'.grid_size = g.grid_size ∧ g'.buy_in = g.buy_in ∧
    g'.game_id = g.game_id ∧ g'.authority = g.authority ∧
    g'.winner = g.winner ∧ g'.created_at = g.created_at ∧
    g'.collapse_round = g.collapse_round := by
  simp only [join_game, checkedAdd64] at h
  repeat split at h
  any_goals exact (Except.noConfusion h)
  split at h
  · exact (Except.noConfusion h)
  · rename_i pool hpool
    split at hpool
    · injection hpool with hpool
      injection h with h
      subst h
      subst hpool
      simp_all
    · exact (Option.noConfusion hpool)

/-- Characterization of a successful `submit_move`. -/
theorem submit_move_ok {g g' : GameState} {pk nx ny : Nat}
    (h : submit_move g pk nx ny = .ok g') :
    g.status = 1 ∧
    ∃ i p, g.players.findIdx? (fun q => q.pubkey == pk) = some i ∧
      g.players.get? i = some p ∧ p.alive = true ∧
      (((nx : Int) - (p.x : Int)).natAbs + ((ny : Int) - (p.y : Int)).natAbs = 1) ∧
      g'.players = g.players.set i { p with x := nx, y := ny } ∧
      g'.status = g.status ∧ g'.prize_pool = g.prize_pool ∧
      g'.buy_in = g.buy_in ∧ g'.grid = g.grid ∧ g'.grid_size = g.grid_size ∧
      g'.game_id = g.game_id ∧ g'.authority = g.authority ∧
      g'.winner = g.winner ∧ g'.created_at = g.created_at ∧
      g'.collapse_round = g.collapse_round := by
  simp only [submit_move] at h
  repeat split at h
  any_goals exact (Except.noConfusion h)
  rename_i i hfind
  split at h
  any_goals exact (Except.noConfusion h)
  rename_i p hget
  repeat split at h
  any_goals exact (Except.noConfusion h)
  injection h with h
  subst h
  exact ⟨by assumption, i, p, hfind, hget, by assumption, by assumption,
    rfl, rfl, rfl, rfl, rfl, rfl, rfl, rfl, rfl, rfl, rfl⟩

/-- A successful elimination pass preserves the pubkey sequence of the
roster (it only flips `alive` flags). -/
theorem eliminateOnLava_ok_map_pubkey {grid : List Nat} {gs : Nat} :
    ∀ {ps ps' : List PlayerState}, eliminateOnLava grid gs ps = .ok ps' →
      ps'.map (fun p => p.pubkey) = ps.map (fun p => p.pubkey) := by
  intro ps
  induction ps with
  | nil =>
    intro ps' h
    simp only [eliminateOnLava] at h
    injection h with h
    subst h
    rfl
  | cons p ps ih =>
    intro ps' h
    simp only [eliminateOnLava] at h
    split at h
    · split at h
      · exact (Except.noConfusion h)
      · cases he : eliminateOnLava grid gs ps with
        | error e => rw [he] at h; exact (Except.noConfusion h)
        | ok l =>
          rw [he] at h
          injection h with h
          subst h
          split <;> simp [ih he]
    · cases he : eliminateOnLava grid gs ps with
      | error e => rw [he] at h; exact (Except.noConfusion h)
      | ok l =>
        rw [he] at h
        injection h with h
        subst h
        simp [ih he]

/-- Characterization of a successful `trigger_collapse`. -/
theorem trigger_collapse_ok {g g' : GameState} {c : Nat}
    {tiles : List (Nat × Nat)} (h : trigger_collapse g c tiles = .ok g') :
    c = g.authority ∧ g.status = 1 ∧
    g'.grid = setHazards g.grid g.grid_size tiles ∧
    eliminateOnLava (setHazards g.grid g.grid_size tiles) g.grid_size
      g.players = .ok g'.players ∧
    g'.collapse_round = g.collapse_round + 1 ∧
    g'.players.map (fun p => p.pubkey) = g.players.map (fun p => p.pubkey) ∧
    g'.status = g.status ∧ g'.prize_pool = g.prize_pool ∧
    g'.buy_in = g.buy_in ∧ g'.grid_size = g.grid_size ∧
    g'.game_id = g.game_id ∧ g'.authority = g.authority ∧
    g'.winner = g.winner ∧ g'.created_at = g.created_at := by
  simp only [trigger_collapse] at h
  repeat split at h
  any_goals exact (Except.noConfusion h)
  rename_i ps hps
  split at h
  case h_1 => exact (Except.noConfusion h)
  case h_2 r hr =>
    unfold checkedAdd8 at hr
    split at hr
    · injection hr with hr
      injection h with h
      subst h
      subst hr
      exact ⟨by assumption, by assumption, rfl, by simp [hps], rfl,
        by simpa using eliminateOnLava_ok_map_pubkey hps,
        rfl, rfl, rfl, rfl, rfl, rfl, rfl, rfl⟩
    · exact (Option.noConfusion hr)

/-- Characterization of a successful `declare_winner`. -/
theorem declare_winner_ok {g g' : GameState} {c amt : Nat}
    (h : declare_winner g c = .ok (g', amt)) :
    c = g.authority ∧ g.status = 1 ∧
    (g.players.filter (fun p => p.alive)).length = 1 ∧
    (∃ w, (g.players.filter (fun p => p.alive)).head? = some w ∧
      g'.winner = some w.pubkey) ∧
    g'.status = 2 ∧ g'.prize_pool = 0 ∧ amt = g.prize_pool ∧
    g'.players = g.players ∧ g'.grid = g.grid ∧
    g'.grid_size = g.grid_size ∧ g'.buy_in = g.buy_in ∧
    g'.game_id = g.game_id ∧ g'.authority = g.authority ∧
    g'.created_at = g.created_at ∧
    g'.collapse_round = g.collapse_round := by
  simp only [declare_winner] at h
  repeat split at h
  any_goals exact (Except.noConfusion h)
  rename_i w hw
  injection h with h
  injection h with h1 h2
  subst h1
  subst h2
  exact ⟨by assumption, by assumption, by assumption, ⟨w, hw, rfl⟩, rfl, rfl,
    rfl, rfl, rfl, rfl, rfl, rfl, rfl, rfl, rfl⟩

/-- Setting an index to the value it already holds is a no-op. -/
theorem set_get_self {α : Type} :
    ∀ (l : List α) (i : Nat) (a : α), l.get? i = some a → l.set i a = l
  | [], _, _, h => by simp at h
  | x :: xs, 0, a, h => by simp at h; simp [h]
  | x :: xs, i+1, a, h => by
    simp only [List.set]
    rw [set_get_self xs i a (by simpa using h)]

/-- A successful `submit_move` preserves the pubkey sequence of the roster. -/
theorem submit_move_ok_map_pubkey {g g' : GameState} {pk nx ny : Nat}
    (h : submit_move g pk nx ny = .ok g') :
    g'.players.map (fun p => p.pubkey) = g.players.map (fun p => p.pubkey) := by
  obtain ⟨-, i, p, -, hget, -, -, hpl, -⟩ := submit_move_ok h
  rw [hpl, List.map_set]
  exact set_get_self _ i _ (by rw [List.get?_map, hget]; rfl)


/-- Every single command preserves the prize-pool accounting invariant. -/
theorem applyCmd_prizeInv {g : GameState} (hg : prizeInv g) (c : Cmd) :
    prizeInv (applyCmd g c) := by
  cases c with
  | join pk x y =>
    cases hj : join_game g pk x y with
    | error e => simpa [applyCmd, hj] using hg
    | ok g' =>
      have happ : applyCmd g (Cmd.join pk x y) = g' := by simp [applyCmd, hj]
      rw [happ]
      obtain ⟨hst, hpl, hpool, hst', hgrid, hgs, hbuy, -⟩ := join_game_ok hj
      constructor
      · intro _
        rw [hpool, hpl, hbuy, List.length_append, List.length_singleton,
          hg.1 (by simp [hst]), Nat.mul_add, Nat.mul_one]
      · intro h2
        rw [hst'] at h2
        split at h2 <;> simp_all
  | move pk x y =>
    cases hm : submit_move g pk x y with
    | error e => simpa [applyCmd, hm] using hg
    | ok g' =>
      have happ : applyCmd g (Cmd.move pk x y) = g' := by simp [applyCmd, hm]
      rw [happ]
      obtain ⟨hst, i, p, hfind, hget, halive, hdist, hpl, hst', hpool, hbuy, -⟩ :=
        submit_move_ok hm
      constructor
      · intro _
        rw [hpool, hbuy, hpl, List.length_set]
        exact hg.1 (by simp [hst])
      · intro h2
        rw [hst', hst] at h2
        exact absurd h2 (by decide)
  | collapse c tiles =>
    cases hc : trigger_collapse g c tiles with
    | error e => simpa [applyCmd, hc] using hg
    | ok g' =>
      have happ : applyCmd g (Cmd.collapse c tiles) = g' := by simp [applyCmd, hc]
      rw [happ]
      obtain ⟨-, hst, -, -, -, hkeys, hst', hpool, hbuy, -⟩ := trigger_collapse_ok hc
      have hlen : g'.players.length = g.players.length := by
        have := congrArg List.length hkeys
        simpa using this
      constructor
      · intro _
        rw [hpool, hbuy, hlen]
        exact hg.1 (by simp [hst])
      · intro h2
        rw [hst', hst] at h2
        exact absurd h2 (by decide)
  | settle c =>
    cases hs : declare_winner g c with
    | error e => simpa [applyCmd, hs] using hg
    | ok gp =>
      obtain ⟨g', amt⟩ := gp
      have happ : applyCmd g (Cmd.settle c) = g' := by simp [applyCmd, hs]
      rw [happ]
      obtain ⟨-, hst, -, -, hst', hpool, -⟩ := declare_winner_ok hs
      constructor
      · intro hne
        exact absurd hst' hne
      · intro _
        exact hpool

/-- The prize-pool accounting invariant is preserved by whole command
sequences. -/
theorem run_prizeInv {g : GameState} (hg : prizeInv g) :
    ∀ cmds : List Cmd, prizeInv (run g cmds) := by
  intro cmds
  induction cmds generalizing g with
  | nil => exact hg
  | cons c cs ih => exact ih (applyCmd_prizeInv hg c)

/-- Fields that no command ever changes: `game_id`, `authority`,
`grid_size`, `buy_in`, `created_at`. -/
theorem applyCmd_immutable (g : GameState) (c : Cmd) :
    (applyCmd g c).game_id = g.game_id ∧
    (applyCmd g c).authority = g.authority ∧
    (applyCmd g c).grid_size = g.grid_size ∧
    (applyCmd g c).buy_in = g.buy_in ∧
    (applyCmd g c).created_at = g.created_at := by
  cases c with
  | join pk x y =>
    cases hj : join_game g pk x y with
    | error e => simp [applyCmd, hj]
    | ok g' =>
      have happ : applyCmd g (Cmd.join pk x y) = g' := by simp [applyCmd, hj]
      rw [happ]
      obtain ⟨-, -, -, -, -, hgs, hbuy, hid, hauth, -, hcr, -⟩ := join_game_ok hj
      exact ⟨hid, hauth, hgs, hbuy, hcr⟩
  | move pk x y =>
    cases hm : submit_move g pk x y with
    | error e => simp [applyCmd, hm]
    | ok g' =>
      have happ : applyCmd g (Cmd.move pk x y) = g' := by simp [applyCmd, hm]
      rw [happ]
      obtain ⟨-, i, p, -, -, -, -, -, -, -, hbuy, -, hgs, hid, hauth, -, hcr, -⟩ :=
        submit_move_ok hm
      exact ⟨hid, hauth, hgs, hbuy, hcr⟩
  | collapse c tiles =>
    cases hc : trigger_collapse g c tiles with
    | error e => simp [applyCmd, hc]
    | ok g' =>
      have happ : applyCmd g (Cmd.collapse c tiles) = g' := by simp [applyCmd, hc]
      rw [happ]
      obtain ⟨-, -, -, -, -, -, -, -, hbuy, hgs, hid, hauth, -, hcr⟩ :=
        trigger_collapse_ok hc
      exact ⟨hid, hauth, hgs, hbuy, hcr⟩
  | settle c =>
    cases hs : declare_winner g c with
    | error e => simp [applyCmd, hs]
    | ok gp =>
      obtain ⟨g', amt⟩ := gp
      have happ : applyCmd g (Cmd.settle c) = g' := by simp [applyCmd, hs]
      rw [happ]
      obtain ⟨-, -, -, -, -, -, -, -, -, hgs, hbuy, hid, hauth, hcr, -⟩ :=
        declare_winner_ok hs
      exact ⟨hid, hauth, hgs, hbuy, hcr⟩

/-- Immutable fields, over whole command sequences. -/
theorem run_immutable (g : GameState) :
    ∀ cmds : List Cmd,
    (run g cmds).game_id = g.game_id ∧
    (run g cmds).authority = g.authority ∧
    (run g cmds).grid_size = g.grid_size ∧
    (run g cmds).buy_in = g.buy_in ∧
    (run g cmds).created_at = g.created_at := by
  intro cmds
  induction cmds generalizing g with
  | nil => exact ⟨rfl, rfl, rfl, rfl, rfl⟩
  | cons c cs ih =>
    have h1 := applyCmd_immutable g c
    have h2 := ih (applyCmd g c)
    exact ⟨h2.1.trans h1.1, h2.2.1.trans h1.2.1, h2.2.2.1.trans h1.2.2.1,
      h2.2.2.2.1.trans h1.2.2.2.1, h2.2.2.2.2.trans h1.2.2.2.2⟩

/-- Characterization of `initialize_game`: the only validation is the
upper bound `grid_size ≤ 10` (there is no lower bound in the source). -/
theorem initialize_game_ok {game_id authority buy_in grid_size : Nat}
    {created_at : Int} {g0 : GameState}
    (h : initialize_game game_id authority buy_in grid_size created_at = .ok g0) :
    grid_size ≤ 10 ∧
    g0 = { game_id := game_id, authority := authority, status := 0,
           grid_size := grid_size,
           grid := List.replicate (grid_size * grid_size) 0, players := [],
           buy_in := buy_in, prize_pool := 0, winner := none,
           created_at := created_at, collapse_round := 0 } := by
  unfold initialize_game at h
  split at h
  · injection h with h
    exact ⟨by assumption, h.symm⟩
  · exact (Except.noConfusion h)

/-- C2: after every transition of every command sequence starting from a
successful create, `prize_pool` equals `buy_in` times the roster length
— which is the number of players who ever joined, since no command ever
removes a roster entry (join appends one entry, move and collapse only
update entries in place, settle leaves the roster untouched) — until a
successful settle, after which `prize_pool` equals 0. -/
theorem prize_pool_accounting
    {game_id authority buy_in grid_size : Nat} {created_at : Int}
    {g0 : GameState}
    (hcreate : initialize_game game_id authority buy_in grid_size created_at
      = .ok g0)
    (cmds : List Cmd) :
    ((run g0 cmds).status ≠ 2 →
      (run g0 cmds).prize_pool = buy_in * (run g0 cmds).players.length) ∧
    ((run g0 cmds).status = 2 → (run g0 cmds).prize_pool = 0) := by
  obtain ⟨-, hg0⟩ := initialize_game_ok hcreate
  have hinv : prizeInv (run g0 cmds) := by
    refine run_prizeInv ?_ cmds
    constructor
    · intro _
      rw [hg0]
      rfl
    · intro h2
      rw [hg0] at h2
      exact absurd h2 (by simp)
  have hbuy : (run g0 cmds).buy_in = buy_in := by
    rw [(run_immutable g0 cmds).2.2.2.1, hg0]
  exact ⟨fun hne => by rw [← hbuy]; exact hinv.1 hne, hinv.2⟩

/-- A successful `declare_winner` preserves the roster. -/
theorem declare_winner_ok_map_pubkey {g g' : GameState} {c amt : Nat}
    (h : declare_winner g c = .ok (g', amt)) :
    g'.players.map (fun p => p.pubkey) = g.players.map (fun p => p.pubkey) := by
  obtain ⟨-, -, -, -, -, -, -, hpl, -⟩ := declare_winner_ok h
  rw [hpl]

/-- If the roster pubkeys together with the pubkeys of all upcoming join
commands are pairwise distinct, the roster pubkeys stay pairwise distinct
through the whole sequence. -/
theorem run_nodup {cmds : List Cmd} :
    ∀ {g : GameState},
    (g.players.map (fun p => p.pubkey) ++ joinKeys cmds).Nodup →
    ((run g cmds).players.map (fun p => p.pubkey)).Nodup := by
  induction cmds with
  | nil =>
    intro g h
    have : run g [] = g := rfl
    rw [this]
    simpa [joinKeys] using h
  | cons c cs ih =>
    intro g h
    have hstep : run g (c :: cs) = run (applyCmd g c) cs := rfl
    rw [hstep]
    cases c with
    | join pk x y =>
      cases hj : join_game g pk x y with
      | error e =>
        have happ : applyCmd g (Cmd.join pk x y) = g := by simp [applyCmd, hj]
        rw [happ]
        refine ih ?_
        refine List.Nodup.sublist ?_ h
        exact List.Sublist.append_left (List.sublist_cons_self pk (joinKeys cs)) _
      | ok g' =>
        have happ : applyCmd g (Cmd.join pk x y) = g' := by simp [applyCmd, hj]
        rw [happ]
        refine ih ?_
        obtain ⟨-, hpl, -⟩ := join_game_ok hj
        have hkeys : g'.players.map (fun p => p.pubkey) =
            g.players.map (fun p => p.pubkey) ++ [pk] := by
          rw [hpl]; simp
        rw [hkeys, List.append_assoc, List.singleton_append]
        simpa [joinKeys] using h
    | move pk x y =>
      cases hm : submit_move g pk x y with
      | error e =>
        have happ : applyCmd g (Cmd.move pk x y) = g := by simp [applyCmd, hm]
        rw [happ]
        exact ih h
      | ok g' =>
        have happ : applyCmd g (Cmd.move pk x y) = g' := by simp [applyCmd, hm]
        rw [happ]
        refine ih ?_
        rw [submit_move_ok_map_pubkey hm]
        exact h
    | collapse c tiles =>
      cases hc : trigger_collapse g c tiles with
      | error e =>
        have happ : applyCmd g (Cmd.collapse c tiles) = g := by simp [applyCmd, hc]
        rw [happ]
        exact ih h
      | ok g' =>
        have happ : applyCmd g (Cmd.collapse c tiles) = g' := by simp [applyCmd, hc]
        rw [happ]
        refine ih ?_
        obtain ⟨-, -, -, -, -, hkeys, -⟩ := trigger_collapse_ok hc
        rw [hkeys]
        exact h
    | settle c =>
      cases hs : declare_winner g c with
      | error e =>
        have happ : applyCmd g (Cmd.settle c) = g := by simp [applyCmd, hs]
        rw [happ]
        exact ih h
      | ok gp =>
        obtain ⟨g', amt⟩ := gp
        have happ : applyCmd g (Cmd.settle c) = g' := by simp [applyCmd, hs]
        rw [happ]
        refine ih ?_
        rw [declare_winner_ok_map_pubkey hs]
        exact h

/-- When the flattened index is in range, `join_game` can never return
`OutOfBounds` (whatever the other checks do). -/
theorem join_in_range_not_oob (g : GameState) (pk x y : Nat)
    (hidx : y * g.grid_size + x < g.grid.length) :
    join_game g pk x y ≠ .error (.err .OutOfBounds) := by
  intro h
  simp only [join_game] at h
  repeat' split at h
  all_goals simp_all

/-- When the flattened index is in range, `submit_move` can never return
`OutOfBounds`. -/
theorem submit_move_in_range_not_oob (g : GameState) (pk nx ny : Nat)
    (hidx : ny * g.grid_size + nx < g.grid.length) :
    submit_move g pk nx ny ≠ .error (.err .OutOfBounds) := by
  intro h
  simp only [submit_move] at h
  repeat' split at h
  all_goals simp_all

/-- After the status and capacity checks pass, `join_game` rejects with
`OutOfBounds` exactly when the flattened index falls outside the grid. -/
theorem join_oob_iff (g : GameState) (pk x y : Nat)
    (hst : g.status = 0) (hlen : g.players.length < 10) :
    join_game g pk x y = .error (.err .OutOfBounds) ↔
      g.grid.length ≤ y * g.grid_size + x := by
  constructor
  · intro h
    by_contra hlt
    exact join_in_range_not_oob g pk x y (by omega) h
  · intro hge
    simp only [join_game]
    rw [if_pos hst, if_pos hlen, if_neg (by omega)]

/-- After status, roster, alive and adjacency checks pass, `submit_move`
rejects with `OutOfBounds` exactly when the flattened destination index
falls outside the grid. -/
theorem submit_move_oob_iff (g : GameState) (pk nx ny i : Nat)
    (p : PlayerState) (hst : g.status = 1)
    (hfind : g.players.findIdx? (fun q => q.pubkey == pk) = some i)
    (hget : g.players.get? i = some p) (halive : p.alive = true)
    (hdist : ((nx : Int) - (p.x : Int)).natAbs +
      ((ny : Int) - (p.y : Int)).natAbs = 1) :
    submit_move g pk nx ny = .error (.err .OutOfBounds) ↔
      g.grid.length ≤ ny * g.grid_size + nx := by
  constructor
  · intro h
    by_contra hlt
    exact submit_move_in_range_not_oob g pk nx ny (by omega) h
  · intro hge
    simp only [submit_move]
    rw [if_pos hst, hfind]
    simp only []
    rw [hget]
    simp only []
    rw [if_pos halive, if_pos hdist, if_neg (by omega)]

/-- After the status, capacity, bounds and safety checks pass,
`join_game` rejects with `TileOccupied` exactly when some roster entry —
alive or eliminated — occupies the target tile. -/
theorem join_tile_occupied_iff (g : GameState) (pk x y : Nat)
    (hst : g.status = 0) (hlen : g.players.length < 10)
    (hidx : y * g.grid_size + x < g.grid.length)
    (hsafe : g.grid.getD (y * g.grid_size + x) 0 = 0) :
    join_game g pk x y = .error (.err .TileOccupied) ↔
      ∃ p ∈ g.players, p.x = x ∧ p.y = y := by
  rw [show (∃ p ∈ g.players, p.x = x ∧ p.y = y) ↔
      (g.players.any (fun p => p.x == x && p.y == y) = true) by
    simp [List.any_eq_true]]
  simp only [join_game]
  rw [if_pos hst, if_pos hlen, if_pos hidx, if_pos hsafe]
  constructor
  · intro h
    by_contra hocc
    rw [if_neg hocc] at h
    cases hadd : checkedAdd64 g.prize_pool g.buy_in with
    | none => rw [hadd] at h; simp at h
    | some pool => rw [hadd] at h; simp at h
  · intro hocc
    rw [if_pos hocc]

/-- After status, roster and alive checks pass, `submit_move` rejects
with `InvalidMove` exactly when the Manhattan distance to the
destination differs from 1. -/
theorem submit_move_invalid_iff (g : GameState) (pk nx ny i : Nat)
    (p : PlayerState) (hst : g.status = 1)
    (hfind : g.players.findIdx? (fun q => q.pubkey == pk) = some i)
    (hget : g.players.get? i = some p) (halive : p.alive = true) :
    submit_move g pk nx ny = .error (.err .InvalidMove) ↔
      ((nx : Int) - (p.x : Int)).natAbs +
        ((ny : Int) - (p.y : Int)).natAbs ≠ 1 := by
  simp only [submit_move]
  rw [if_pos hst, hfind]
  simp only []
  rw [hget]
  simp only []
  rw [if_pos halive]
  by_cases hdist : ((nx : Int) - (p.x : Int)).natAbs +
      ((ny : Int) - (p.y : Int)).natAbs = 1
  · rw [if_pos hdist]
    constructor
    · intro h
      exfalso
      repeat' split at h
      all_goals simp_all
    · intro h
      exact absurd hdist h
  · rw [if_neg hdist]
    simp [hdist]

/-- A legal one-step move onto an in-bounds safe tile succeeds even when
another alive player already stands on that tile: `submit_move` performs
no destination-occupancy check. -/
theorem submit_move_ignores_occupancy (g : GameState) (pk nx ny i : Nat)
    (p : PlayerState) (hst : g.status = 1)
    (hfind : g.players.findIdx? (fun q => q.pubkey == pk) = some i)
    (hget : g.players.get? i = some p) (halive : p.alive = true)
    (hdist : ((nx : Int) - (p.x : Int)).natAbs +
      ((ny : Int) - (p.y : Int)).natAbs = 1)
    (hgrid : g.grid.length = g.grid_size * g.grid_size)
    (hx : nx < g.grid_size) (hy : ny < g.grid_size)
    (hsafe : g.grid.getD (ny * g.grid_size + nx) 0 = 0)
    (hocc : ∃ q ∈ g.players, q.alive = true ∧ q.x = nx ∧ q.y = ny ∧
      q.pubkey ≠ pk) :
    submit_move g pk nx ny =
      .ok { g with players := g.players.set i { p with x := nx, y := ny } } := by
  have hstep : ny * g.grid_size + g.grid_size ≤ g.grid_size * g.grid_size := by
    have h1 : ny * g.grid_size + g.grid_size = (ny + 1) * g.grid_size := by ring
    rw [h1]
    exact Nat.mul_le_mul_right _ hy
  have hidx : ny * g.grid_size + nx < g.grid.length := by
    rw [hgrid]
    omega
  simp only [submit_move]
  rw [if_pos hst, hfind]
  simp only []
  rw [hget]
  simp only []
  rw [if_pos halive, if_pos hdist, if_pos hidx, if_pos hsafe]

/-- C9: a successful join appends exactly one entry
`{pubkey, x, y, alive := true}` to the roster, leaves the grid and every
previously joined player unchanged, and afterwards the status is active
(1) iff the roster has at least 2 players — a one-player game stays
waiting (0), and activation happens inside the very join that brings the
roster to 2, hence before any move. -/
theorem join_effect {g g' : GameState} {pk x y : Nat}
    (h : join_game g pk x y = .ok g') :
    g'.players = g.players ++
      [{ pubkey := pk, x := x, y := y, alive := true }] ∧
    g'.grid = g.grid ∧
    (∀ i, i < g.players.length → g'.players.get? i = g.players.get? i) ∧
    (g'.status = 1 ↔ 2 ≤ g'.players.length) ∧
    (¬ 2 ≤ g'.players.length → g'.status = 0) := by
  obtain ⟨hst, hpl, hpool, hst', hgrid, -⟩ := join_game_ok h
  have hlen : g'.players.length = g.players.length + 1 := by
    rw [hpl]
    simp
  refine ⟨hpl, hgrid, ?_, ?_, ?_⟩
  · intro i hi
    rw [hpl, List.get?_append hi]
  · rw [hst', hlen]
    split
    · simp_all
    · constructor
      · intro h1
        exact absurd h1 (by simp)
      · intro h2
        simp_all
  · intro hlt
    rw [hlen] at hlt
    rw [hst']
    rw [if_neg (by omega)]

/-- Settling a game with exactly one survivor succeeds with the claimed
result: winner set, status resolved, pool zeroed, full pool paid out. -/
theorem declare_winner_success (g : GameState) (w : PlayerState)
    (hst : g.status = 1)
    (hfilter : g.players.filter (fun p => p.alive) = [w]) :
    declare_winner g g.authority =
      .ok ({ g with winner := some w.pubkey, status := 2, prize_pool := 0 },
        g.prize_pool) := by
  simp [declare_winner, hfilter, hst]

/-- With an invalid survivor count, settling fails `GameNotResolved`. -/
theorem declare_winner_not_resolved (g : GameState) (hst : g.status = 1)
    (hcount : (g.players.filter (fun p => p.alive)).length ≠ 1) :
    declare_winner g g.authority = .error (.err .GameNotResolved) := by
  simp only [declare_winner]
  rw [if_pos trivial, if_pos hst, if_neg hcount]

/-- Settling a non-active (e.g. already resolved) game fails
`GameNotActive`. -/
theorem declare_winner_not_active (g : GameState) (caller : Nat)
    (hauth : caller = g.authority) (hst : g.status ≠ 1) :
    declare_winner g caller = .error (.err .GameNotActive) := by
  simp only [declare_winner]
  rw [if_pos hauth, if_neg hst]

/-- A failed settle transaction leaves the stored record unchanged. -/
theorem applyCmd_settle_error {g : GameState} {c : Nat} {e : TxFailure}
    (h : declare_winner g c = .error e) : applyCmd g (.settle c) = g := by
  simp [applyCmd, h]

/-- Applying `setHazards` to an empty tile list is the identity. -/
theorem setHazards_nil (grid : List Nat) (gs : Nat) :
    setHazards grid gs [] = grid := rfl

/-- One step of `setHazards`. -/
theorem setHazards_cons (grid : List Nat) (gs : Nat) (t : Nat × Nat)
    (ts : List (Nat × Nat)) :
    setHazards grid gs (t :: ts) =
      setHazards
        (if t.2 * gs + t.1 < grid.length then grid.set (t.2 * gs + t.1) 1
         else grid) gs ts := rfl

/-- The function `setHazards` preserves the grid length. -/
theorem setHazards_length (gs : Nat) :
    ∀ (tiles : List (Nat × Nat)) (grid : List Nat),
      (setHazards grid gs tiles).length = grid.length
  | [], _ => rfl
  | t :: ts, grid => by
    rw [setHazards_cons, setHazards_length gs ts]
    split <;> simp

/-- Reading an updated cell. -/
theorem getD_set_self (l : List Nat) (j a : Nat) (h : j < l.length) :
    (l.set j a).getD j 0 = a := by
  simp [List.getD, List.getElem?_set_eq h]

/-- Reading any other cell. -/
theorem getD_set_ne (l : List Nat) (j i a : Nat) (h : j ≠ i) :
    (l.set j a).getD i 0 = l.getD i 0 := by
  simp [List.getD, List.getElem?_set_ne h]

/-- Pointwise description of `setHazards`: a cell inside the grid reads
1 exactly when some listed tile maps onto it (by flattened index), and
keeps its old value otherwise; listed tiles whose flattened index is out
of range touch nothing. -/
theorem setHazards_getD (gs : Nat) :
    ∀ (tiles : List (Nat × Nat)) (grid : List Nat) (i : Nat),
      i < grid.length →
      (setHazards grid gs tiles).getD i 0 =
        if tiles.any (fun t => t.2 * gs + t.1 == i) then 1
        else grid.getD i 0
  | [], grid, i, _ => by simp [setHazards_nil]
  | t :: ts, grid, i, hi => by
    rw [setHazards_cons]
    by_cases hj : t.2 * gs + t.1 < grid.length
    · rw [if_pos hj, setHazards_getD gs ts _ i (by simpa using hi)]
      by_cases hji : t.2 * gs + t.1 = i
      · by_cases hany : ts.any (fun t => t.2 * gs + t.1 == i) = true
        · simp [hany, hji]
        · simp only [Bool.not_eq_true] at hany
          rw [if_neg (by simp [hany]), hji, getD_set_self grid i 1 (hji ▸ hj),
            if_pos (by simp [hji])]
      · by_cases hany : ts.any (fun t => t.2 * gs + t.1 == i) = true
        · simp [hany, hji]
        · simp only [Bool.not_eq_true] at hany
          simp [hany, hji, getD_set_ne grid _ i 1 hji]
    · rw [if_neg hj, setHazards_getD gs ts grid i hi]
      have hji : t.2 * gs + t.1 ≠ i := by omega
      by_cases hany : ts.any (fun t => t.2 * gs + t.1 == i) = true
      · simp [hany, hji]
      · simp only [Bool.not_eq_true] at hany
        simp [hany, hji]

/-- Rust indexing with an in-range index reads the cell. -/
theorem rustIndex_lt (l : List Nat) (i : Nat) (h : i < l.length) :
    rustIndex l i = .ok (l.getD i 0) := by
  unfold rustIndex
  split
  case h_1 v hv =>
    rw [show l.getD i 0 = (l.get? i).getD 0 from rfl, hv]
    rfl
  case h_2 hv =>
    rw [List.get?_eq_none] at hv
    omega

/-- When every alive player's flattened index is in range, the
elimination pass succeeds and flips `alive` to false exactly for the
alive players standing on lava. -/
theorem eliminateOnLava_eq_map (grid : List Nat) (gs : Nat) :
    ∀ ps : List PlayerState,
      (∀ p ∈ ps, p.alive = true → p.y * gs + p.x < grid.length) →
      eliminateOnLava grid gs ps =
        .ok (ps.map (fun p =>
          if p.alive && (grid.getD (p.y * gs + p.x) 0 == 1)
          then { p with alive := false } else p))
  | [], _ => rfl
  | p :: ps, h => by
    simp only [eliminateOnLava]
    have ihyp : ∀ q ∈ ps, q.alive = true → q.y * gs + q.x < grid.length :=
      fun q hq => h q (List.mem_cons_of_mem p hq)
    rw [eliminateOnLava_eq_map grid gs ps ihyp]
    by_cases hal : p.alive = true
    · rw [if_pos hal, rustIndex_lt grid _ (h p (List.mem_cons_self p ps) hal)]
      simp only [Except.map]
      by_cases hv : grid.getD (p.y * gs + p.x) 0 = 1
      · simp [hal, hv]
      · simp [hal, hv]
    · rw [if_neg hal]
      simp only [Except.map]
      simp only [Bool.not_eq_true] at hal
      simp [hal]

/-- C7 (amended): an authorized collapse on an active game — provided
the round counter is below its `u8` maximum and every alive player's
flattened index is inside the grid vector (both hold on reachable
states) — sets to hazard exactly the cells whose index is hit by some
listed tile's flattened index `ty*grid_size + tx` (entries whose
flattened index is out of range are silently ignored; but a tile like
`(grid_size, 0)` is *in range by flattened index* and flips the cell of
a different coordinate, which is why the claim's coordinate-wise
reading fails — see the counterexample); afterwards exactly the alive
players standing on hazard cells have `alive` set to false, nothing
else about any player changes, and `collapse_round` increases by
exactly 1. -/
theorem collapse_spec (g : GameState) (tiles : List (Nat × Nat))
    (hst : g.status = 1) (hrd : g.collapse_round ≤ 254)
    (hpos : ∀ p ∈ g.players, p.alive = true →
      p.y * g.grid_size + p.x < g.grid.length) :
    trigger_collapse g g.authority tiles =
      .ok { g with
        grid := setHazards g.grid g.grid_size tiles,
        players := g.players.map (fun p =>
          if p.alive && ((setHazards g.grid g.grid_size tiles).getD
              (p.y * g.grid_size + p.x) 0 == 1)
          then { p with alive := false } else p),
        collapse_round := g.collapse_round + 1 } ∧
    (∀ i, i < g.grid.length →
      (setHazards g.grid g.grid_size tiles).getD i 0 =
        if tiles.any (fun t => t.2 * g.grid_size + t.1 == i) then 1
        else g.grid.getD i 0) := by
  constructor
  · simp only [trigger_collapse]
    rw [if_pos trivial, if_pos hst]
    rw [eliminateOnLava_eq_map _ _ g.players (by
      intro p hp hal
      rw [setHazards_length]
      exact hpos p hp hal)]
    simp only []
    rw [show checkedAdd8 g.collapse_round 1 = some (g.collapse_round + 1) by
      unfold checkedAdd8
      rw [if_pos (by omega)]]
  · intro i hi
    exact setHazards_getD g.grid_size tiles g.grid i hi


/-- C1: for every record, an authorized settle succeeds only when the
status is active (1) and exactly one player is alive; with zero or two
or more alive players it fails with `GameNotResolved` and the stored
record is unchanged; on success the winner is the survivor's pubkey,
the status becomes resolved (2), the pool is zeroed and the full old
pool is paid out (the second component); a second settle on the
resolved record fails with `GameNotActive`, pays nothing (an `error`
result carries no payout) and changes nothing. -/
theorem settle_spec (g : GameState) :
    (∀ caller g' amt, declare_winner g caller = .ok (g', amt) →
      g.status = 1 ∧ (g.players.filter (fun p => p.alive)).length = 1) ∧
    (g.status = 1 → (g.players.filter (fun p => p.alive)).length ≠ 1 →
      declare_winner g g.authority = .error (.err .GameNotResolved) ∧
      applyCmd g (.settle g.authority) = g) ∧
    (∀ w, g.status = 1 → g.players.filter (fun p => p.alive) = [w] →
      declare_winner g g.authority =
        .ok ({ g with winner := some w.pubkey, status := 2, prize_pool := 0 },
          g.prize_pool) ∧
      declare_winner
          { g with winner := some w.pubkey, status := 2, prize_pool := 0 }
          g.authority = .error (.err .GameNotActive) ∧
      applyCmd { g with winner := some w.pubkey, status := 2, prize_pool := 0 }
          (.settle g.authority) =
        { g with winner := some w.pubkey, status := 2, prize_pool := 0 }) := by
  refine ⟨?_, ?_, ?_⟩
  · intro caller g' amt h
    obtain ⟨-, hst, hcount, -⟩ := declare_winner_ok h
    exact ⟨hst, hcount⟩
  · intro hst hcount
    have herr := declare_winner_not_resolved g hst hcount
    exact ⟨herr, applyCmd_settle_error herr⟩
  · intro w hst hfilter
    have hok := declare_winner_success g w hst hfilter
    have herr := declare_winner_not_active
      { g with winner := some w.pubkey, status := 2, prize_pool := 0 }
      g.authority rfl (by simp)
    exact ⟨hok, herr, applyCmd_settle_error herr⟩

/-- C3 (amended): `initialize_game` validates only the upper bound: for
`grid_size > 10` it fails with `InvalidGridSize` (the spec's
`InvalidConfig`), and for every `grid_size ≤ 10` — including 0, which
the claim said must be rejected — it returns a fresh waiting record
with an all-safe `grid_size²` grid, empty roster, zero pool and zero
collapse round. -/
theorem create_grid_size_spec (game_id authority buy_in grid_size : Nat)
    (created_at : Int) :
    (10 < grid_size →
      initialize_game game_id authority buy_in grid_size created_at =
        .error (.err .InvalidGridSize)) ∧
    (grid_size ≤ 10 →
      initialize_game game_id authority buy_in grid_size created_at =
        .ok { game_id := game_id, authority := authority, status := 0,
              grid_size := grid_size,
              grid := List.replicate (grid_size * grid_size) 0,
              players := [], buy_in := buy_in, prize_pool := 0,
              winner := none, created_at := created_at,
              collapse_round := 0 }) := by
  constructor
  · intro h
    unfold initialize_game
    rw [if_neg (by omega)]
  · intro h
    unfold initialize_game
    rw [if_pos h]

/-- C3 counterexample: `grid_size = 0` lies outside the claimed valid
range `[1,10]`, yet create succeeds (the source only checks
`grid_size <= 10`), refuting "for every gridSize outside [1,10], create
fails with InvalidConfig". -/
theorem create_lower_bound_counterexample :
    initialize_game 1 9 100 0 0 =
      .ok { game_id := 1, authority := 9, status := 0, grid_size := 0,
            grid := [], players := [], buy_in := 100, prize_pool := 0,
            winner := none, created_at := 0, collapse_round := 0 } := rfl

/-- Witness for `create_grid_size_spec` at `grid_size = 11` and
`grid_size = 2`. -/
theorem create_grid_size_spec_witness :
    initialize_game 1 9 100 11 0 = .error (.err .InvalidGridSize) ∧
    initialize_game 1 9 100 2 0 = .ok sampleGame :=
  ⟨(create_grid_size_spec 1 9 100 11 0).1 (by decide),
   (create_grid_size_spec 1 9 100 2 0).2 (by decide)⟩

/-- A coordinate pair inside the grid has a flattened index inside the
grid vector. -/
theorem flat_index_lt (gs x y : Nat) (hx : x < gs) (hy : y < gs) :
    y * gs + x < gs * gs := by
  have h2 : y * gs + gs = (y + 1) * gs := by ring
  have h1 : y * gs + gs ≤ gs * gs := by
    rw [h2]
    exact Nat.mul_le_mul_right _ hy
  omega

/-- C4 (amended): the bounds checks of `join_game` and `submit_move`
test the flattened index `y*grid_size + x` against the grid length, not
the coordinates against `grid_size`: after the earlier checks pass, the
command fails with `OutOfBounds` iff `grid.length ≤ y*grid_size + x`
(so e.g. `x ≥ grid_size` with a small `y` slips through — see the
counterexample); coordinates with `x < grid_size` and `y < grid_size`
are indeed never rejected with `OutOfBounds`. -/
theorem out_of_bounds_spec (g : GameState) (pk x y nx ny i : Nat)
    (p : PlayerState) :
    (g.status = 0 → g.players.length < 10 →
      (join_game g pk x y = .error (.err .OutOfBounds) ↔
        g.grid.length ≤ y * g.grid_size + x)) ∧
    (g.status = 1 → g.players.findIdx? (fun q => q.pubkey == pk) = some i →
      g.players.get? i = some p → p.alive = true →
      ((nx : Int) - (p.x : Int)).natAbs +
        ((ny : Int) - (p.y : Int)).natAbs = 1 →
      (submit_move g pk nx ny = .error (.err .OutOfBounds) ↔
        g.grid.length ≤ ny * g.grid_size + nx)) ∧
    (g.grid.length = g.grid_size * g.grid_size →
      x < g.grid_size → y < g.grid_size →
      join_game g pk x y ≠ .error (.err .OutOfBounds) ∧
      submit_move g pk x y ≠ .error (.err .OutOfBounds)) := by
  refine ⟨?_, ?_, ?_⟩
  · intro hst hlen
    exact join_oob_iff g pk x y hst hlen
  · intro hst hfind hget halive hdist
    exact submit_move_oob_iff g pk nx ny i p hst hfind hget halive hdist
  · intro hgrid hx hy
    have hidx : y * g.grid_size + x < g.grid.length := by
      rw [hgrid]
      exact flat_index_lt g.grid_size x y hx hy
    exact ⟨join_in_range_not_oob g pk x y hidx,
      submit_move_in_range_not_oob g pk x y hidx⟩

/-- C4 counterexample: on the 2×2 game, `x = 2 ≥ grid_size` with
`y = 0` gives flattened index 2 < 4, so join does not fail
`OutOfBounds` — it succeeds and parks the player at the out-of-grid
coordinate (2,0), refuting "for every (x,y) with x ≥ gridSize …, join
fails with OutOfBounds". -/
theorem oob_flat_index_counterexample :
    join_game sampleGame 7 2 0 =
      .ok { sampleGame with
        players := [{ pubkey := 7, x := 2, y := 0, alive := true }]
        prize_pool := 100 } := rfl

/-- Witness for `out_of_bounds_spec`: a genuinely out-of-range flattened
index is rejected for both commands, and in-grid coordinates never are. -/
theorem out_of_bounds_spec_witness :
    join_game sampleGame 7 0 2 = .error (.err .OutOfBounds) ∧
    submit_move sampleEdge 5 1 2 = .error (.err .OutOfBounds) ∧
    join_game sampleGame 7 1 1 ≠ .error (.err .OutOfBounds) ∧
    submit_move sampleGame 7 1 1 ≠ .error (.err .OutOfBounds) := by
  refine ⟨?_, ?_, ?_, ?_⟩
  · exact ((out_of_bounds_spec sampleGame 7 0 2 0 0 0
      { pubkey := 0, x := 0, y := 0, alive := true }).1
      rfl (by decide)).mpr (by decide)
  · exact ((out_of_bounds_spec sampleEdge 5 0 0 1 2 0
      { pubkey := 5, x := 1, y := 1, alive := true }).2.1
      rfl (by decide) (by decide) rfl (by decide)).mpr (by decide)
  · exact ((out_of_bounds_spec sampleGame 7 1 1 0 0 0
      { pubkey := 0, x := 0, y := 0, alive := true }).2.2
      rfl (by decide) (by decide)).1
  · exact ((out_of_bounds_spec sampleGame 7 1 1 0 0 0
      { pubkey := 0, x := 0, y := 0, alive := true }).2.2
      rfl (by decide) (by decide)).2

/-- C5 (amended): after the earlier checks pass, `join_game` fails with
`TileOccupied` exactly when some roster entry — alive **or eliminated**
— occupies `(x,y)`: the source's occupancy loop does not test `alive`,
so a tile occupied only by an eliminated player is not joinable (the
claim said it is). On records actually reachable in the waiting state
the two readings coincide, because players can only be eliminated by a
collapse, which requires the active state. -/
theorem tile_occupied_spec (g : GameState) (pk x y : Nat)
    (hst : g.status = 0) (hlen : g.players.length < 10)
    (hidx : y * g.grid_size + x < g.grid.length)
    (hsafe : g.grid.getD (y * g.grid_size + x) 0 = 0) :
    join_game g pk x y = .error (.err .TileOccupied) ↔
      ∃ p ∈ g.players, p.x = x ∧ p.y = y :=
  join_tile_occupied_iff g pk x y hst hlen hidx hsafe

/-- C5 counterexample: tile (1,1) is occupied only by an eliminated
player (`alive = false`), all other join preconditions hold, yet the
join is rejected with `TileOccupied` — the claim said such a tile is
joinable. -/
theorem tile_occupied_dead_counterexample :
    join_game sampleDeadOccupant 7 1 1 = .error (.err .TileOccupied) ∧
    sampleDeadOccupant.players =
      [{ pubkey := 5, x := 1, y := 1, alive := false }] :=
  ⟨rfl, rfl⟩

/-- Witness for `tile_occupied_spec`: an alive occupant blocks the
tile. -/
theorem tile_occupied_spec_witness :
    join_game sampleAliveOccupant 7 1 1 = .error (.err .TileOccupied) :=
  (tile_occupied_spec sampleAliveOccupant 7 1 1 rfl (by decide) (by decide)
    (by decide)).mpr
    ⟨{ pubkey := 5, x := 1, y := 1, alive := true }, by decide, rfl, rfl⟩

/-- C6 (amended): `join_game` performs no duplicate-identity check, so
roster identities are unique only under the extra assumption that the
join commands of the sequence carry pairwise distinct pubkeys; with that
assumption, every reachable record has pairwise distinct roster
identities (the counterexample shows the assumption is necessary). -/
theorem unique_identities_spec
    {game_id authority buy_in grid_size : Nat} {created_at : Int}
    {g0 : GameState}
    (hcreate : initialize_game game_id authority buy_in grid_size created_at
      = .ok g0)
    (cmds : List Cmd) (hdistinct : (joinKeys cmds).Nodup) :
    ((run g0 cmds).players.map (fun p => p.pubkey)).Nodup := by
  refine run_nodup ?_
  obtain ⟨-, hg0⟩ := initialize_game_ok hcreate
  rw [hg0]
  simpa using hdistinct

/-- C6 counterexample: the same pubkey joins twice on different tiles of
a freshly created game; both joins succeed and the roster ends with the
duplicated identity [7, 7] — refuting "no command sequence produces a
record in which two roster entries have the same identity". -/
theorem duplicate_identity_counterexample :
    initialize_game 1 9 100 2 0 = .ok sampleGame ∧
    (run sampleGame [Cmd.join 7 0 0, Cmd.join 7 1 0]).players.map
      (fun p => p.pubkey) = [7, 7] ∧
    ([7, 7] : List Nat).Nodup = False := by
  refine ⟨rfl, rfl, ?_⟩
  simp [List.Nodup]

/-- Witness for `unique_identities_spec` on a two-join sequence with
distinct pubkeys. -/
theorem unique_identities_spec_witness :
    ((run sampleGame [Cmd.join 5 0 0, Cmd.join 6 1 1]).players.map
      (fun p => p.pubkey)).Nodup :=
  @unique_identities_spec 1 9 100 2 0 sampleGame rfl
    [Cmd.join 5 0 0, Cmd.join 6 1 1] (by decide)

/-- C7 counterexample: tile `(2,0)` is out of bounds coordinate-wise on
the 2×2 grid (`x = 2 ≥ grid_size`), so per the claim the collapse should
ignore it and leave every cell unchanged; the code instead flips cell
index `0*2+2 = 2` — the cell of coordinate (0,1), which was never
listed. -/
theorem collapse_oob_tile_counterexample :
    trigger_collapse sampleActiveEmpty 9 [(2, 0)] =
      .ok { sampleActiveEmpty with grid := [0, 0, 1, 0], collapse_round := 1 } ∧
    sampleActiveEmpty.grid = [0, 0, 0, 0] := ⟨rfl, rfl⟩

/-- Witness for `collapse_spec`: collapsing tile (1,0) of the active
game eliminates the player standing there and leaves the other alive. -/
theorem collapse_spec_witness :
    trigger_collapse sampleActive 9 [(1, 0)] =
      .ok { sampleActive with
        grid := [0, 1, 0, 0]
        players := [{ pubkey := 5, x := 1, y := 0, alive := false },
                    { pubkey := 6, x := 0, y := 1, alive := true }]
        collapse_round := 1 } :=
  (collapse_spec sampleActive [(1, 0)] rfl (by decide) (by decide)).1

/-- Witness for `prize_pool_accounting`: two joins at buy-in 100 leave a
pool of 200 = 100 × 2 while unresolved. -/
theorem prize_pool_accounting_witness :
    (run sampleGame [Cmd.join 5 0 0, Cmd.join 6 1 1]).prize_pool =
      100 * (run sampleGame [Cmd.join 5 0 0, Cmd.join 6 1 1]).players.length :=
  (@prize_pool_accounting 1 9 100 2 0 sampleGame rfl
    [Cmd.join 5 0 0, Cmd.join 6 1 1]).1 (by decide)

/-- C8: after the status, roster and alive checks pass, `submit_move`
fails with `InvalidMove` exactly when the Manhattan distance between the
player's position and the destination differs from 1 (diagonal,
zero-length and multi-tile moves are all rejected); and a one-step move
onto an in-bounds safe tile succeeds even when another alive player
already stands there — destination occupancy is not checked. -/
theorem move_distance_spec (g : GameState) (pk nx ny i : Nat)
    (p : PlayerState) (hst : g.status = 1)
    (hfind : g.players.findIdx? (fun q => q.pubkey == pk) = some i)
    (hget : g.players.get? i = some p) (halive : p.alive = true) :
    (submit_move g pk nx ny = .error (.err .InvalidMove) ↔
      ((nx : Int) - (p.x : Int)).natAbs +
        ((ny : Int) - (p.y : Int)).natAbs ≠ 1) ∧
    (((nx : Int) - (p.x : Int)).natAbs +
        ((ny : Int) - (p.y : Int)).natAbs = 1 →
      g.grid.length = g.grid_size * g.grid_size →
      nx < g.grid_size → ny < g.grid_size →
      g.grid.getD (ny * g.grid_size + nx) 0 = 0 →
      (∃ q ∈ g.players, q.alive = true ∧ q.x = nx ∧ q.y = ny ∧
        q.pubkey ≠ pk) →
      submit_move g pk nx ny =
        .ok { g with
          players := g.players.set i { p with x := nx, y := ny } }) := by
  constructor
  · exact submit_move_invalid_iff g pk nx ny i p hst hfind hget halive
  · intro hdist hgrid hx hy hsafe hocc
    exact submit_move_ignores_occupancy g pk nx ny i p hst hfind hget
      halive hdist hgrid hx hy hsafe hocc

/-- Witness for `move_distance_spec`: the diagonal move (0,0)→(1,1) is
rejected `InvalidMove`; the cardinal move (0,0)→(1,0) succeeds although
the alive player 6 already stands on (1,0). -/
theorem move_distance_spec_witness :
    submit_move sampleMove 5 1 1 = .error (.err .InvalidMove) ∧
    submit_move sampleMove 5 1 0 =
      .ok { sampleMove with
        players := [{ pubkey := 5, x := 1, y := 0, alive := true },
                    { pubkey := 6, x := 1, y := 0, alive := true }] } := by
  constructor
  · exact (move_distance_spec sampleMove 5 1 1 0
      { pubkey := 5, x := 0, y := 0, alive := true }
      rfl rfl rfl rfl).1.mpr (by decide)
  · exact (move_distance_spec sampleMove 5 1 0 0
      { pubkey := 5, x := 0, y := 0, alive := true }
      rfl rfl rfl rfl).2 (by decide) rfl (by decide) (by decide) rfl
      ⟨{ pubkey := 6, x := 1, y := 0, alive := true }, by decide, rfl, rfl,
        rfl, by decide⟩

/-- Witness for `join_effect` on the first join of a fresh game. -/
theorem join_effect_witness :
    gJoined.players = sampleGame.players ++
      [{ pubkey := 5, x := 0, y := 0, alive := true }] ∧
    gJoined.grid = sampleGame.grid ∧
    (gJoined.status = 1 ↔ 2 ≤ gJoined.players.length) :=
  have h := @join_effect sampleGame gJoined 5 0 0 rfl
  ⟨h.1, h.2.1, h.2.2.2.1⟩

/-- C10 (amended): when adding `buy_in` to `prize_pool` in join would
overflow `u64`, and when incrementing `collapse_round` in collapse
would overflow `u8`, the command fails and the stored record is left
unchanged — but through the `unwrap()` panic that aborts the
transaction, not through a returned `ArithmeticOverflow` error: no such
error kind exists in the program (`IgniteError` has no overflow
variant). -/
theorem overflow_panics (g : GameState) (pk x y caller : Nat)
    (tiles : List (Nat × Nat)) :
    (g.status = 0 → g.players.length < 10 →
      y * g.grid_size + x < g.grid.length →
      g.grid.getD (y * g.grid_size + x) 0 = 0 →
      g.players.any (fun p => p.x == x && p.y == y) = false →
      2 ^ 64 ≤ g.prize_pool + g.buy_in →
      join_game g pk x y = .error .panic ∧
      applyCmd g (.join pk x y) = g) ∧
    (caller = g.authority → g.status = 1 → g.collapse_round = 255 →
      (∀ p ∈ g.players, p.alive = true →
        p.y * g.grid_size + p.x < g.grid.length) →
      trigger_collapse g caller tiles = .error .panic ∧
      applyCmd g (.collapse caller tiles) = g) := by
  constructor
  · intro hst hlen hidx hsafe hocc hov
    have hj : join_game g pk x y = .error .panic := by
      simp only [join_game]
      rw [if_pos hst, if_pos hlen, if_pos hidx, if_pos hsafe,
        if_neg (by simp [hocc])]
      rw [show checkedAdd64 g.prize_pool g.buy_in = none by
        unfold checkedAdd64
        rw [if_neg (by omega)]]
    exact ⟨hj, by simp [applyCmd, hj]⟩
  · intro hauth hst hrd hpos
    have hc : trigger_collapse g caller tiles = .error .panic := by
      simp only [trigger_collapse]
      rw [if_pos hauth, if_pos hst]
      rw [eliminateOnLava_eq_map _ _ g.players (by
        intro p hp hal
        rw [setHazards_length]
        exact hpos p hp hal)]
      simp only []
      rw [show checkedAdd8 g.collapse_round 1 = none by
        unfold checkedAdd8
        rw [if_neg (by omega)]]
    exact ⟨hc, by simp [applyCmd, hc]⟩

/-- C10 counterexample: with the pool at `2^64 - 1` and buy-in 100, join
aborts with a panic (`checked_add(..).unwrap()` on `None`); likewise a
collapse at round 255.  The failure is a transaction-aborting panic, not
a returned program error — refuting "fails with the error
ArithmeticOverflow (a returned error, not wrapping and not a panic)". -/
theorem overflow_error_kind_counterexample :
    join_game sampleOverflowPool 7 0 0 = .error .panic ∧
    trigger_collapse sampleMaxRound 9 [] = .error .panic := ⟨rfl, rfl⟩

/-- Witness for `overflow_panics` on the two sample records. -/
theorem overflow_panics_witness :
    (join_game sampleOverflowPool 11 1 0 = .error .panic ∧
      applyCmd sampleOverflowPool (.join 11 1 0) = sampleOverflowPool) ∧
    (trigger_collapse sampleMaxRound 9 [(0, 0)] = .error .panic ∧
      applyCmd sampleMaxRound (.collapse 9 [(0, 0)]) = sampleMaxRound) :=
  ⟨(overflow_panics sampleOverflowPool 11 1 0 9 [(0, 0)]).1 rfl (by decide)
      (by decide) rfl (by decide) (by decide),
   (overflow_panics sampleMaxRound 11 1 0 9 [(0, 0)]).2 rfl rfl rfl
      (by decide)⟩

/-- Witness for `settle_spec`: settling the one-survivor game pays out
200 and resolves it; a second settle fails `GameNotActive` and changes
nothing; settling the two-survivor game fails `GameNotResolved`. -/
theorem settle_spec_witness :
    (sampleSettle.status = 1 ∧
      (sampleSettle.players.filter (fun p => p.alive)).length = 1) ∧
    (declare_winner sampleActive 9 = .error (.err .GameNotResolved) ∧
      applyCmd sampleActive (.settle 9) = sampleActive) ∧
    (declare_winner sampleSettle 9 =
        .ok ({ sampleSettle with
          winner := some 5, status := 2, prize_pool := 0 }, 200) ∧
      declare_winner
          { sampleSettle with winner := some 5, status := 2, prize_pool := 0 }
          9 = .error (.err .GameNotActive) ∧
      applyCmd
          { sampleSettle with winner := some 5, status := 2, prize_pool := 0 }
          (.settle 9) =
        { sampleSettle with
          winner := some 5, status := 2, prize_pool := 0 }) :=
  ⟨(settle_spec sampleSettle).1 9
      ({ sampleSettle with winner := some 5, status := 2, prize_pool := 0 })
      200 rfl,
   (settle_spec sampleActive).2.1 rfl (by decide),
   (settle_spec sampleSettle).2.2
      { pubkey := 5, x := 0, y := 0, alive := true } rfl (by decide)⟩
